import Mathlib

/-!
  Verification development for the log-triage application.

  The definitions below are a shallow embedding of the program's
  orchestration core:

  * the mock task service (`performTriage`, `pollTriageStatus`,
    `cancelTriage`, and the two continuations of `callGeminiApi`) from
    `services/geminiService.ts`, modelled as pure transformers of an
    in-memory task store;
  * the conversation orchestrator (`ChatPage`) with its handlers
    (`handleUserResponse`, `handleFileUpload`, `handleStop`,
    `handleReset`, `validateFullDescription`, the poll callback and the
    question sequencer `askQuestion`), modelled as a step function over
    an explicit state record driven by an event queue.  Asynchronous
    calls (validator, submit, poll) are modelled by in-flight call
    identifiers recorded at issue time; their completions are delivered
    as separate events, in any order, which makes stale-response races
    expressible.  Timers (`setTimeout` for poll scheduling) are modelled
    as a set of live timer identifiers; firing or clearing a timer
    removes it.  The bot-typing delays carry no guards in the source and
    are collapsed.

  Ghost fields (`validatorCalls`, `confirmStepsShown`, `cancelsIssued`)
  count observable effects without influencing behaviour.
-/

namespace LogTriage

/-! ## Data model (from `types.ts`) -/

/-- Sender of a chat message. -/
inductive Sender where
  | bot
  | user
deriving Repr, DecidableEq, BEq

/-- Final analysis result returned by the service (`TriageResult`). -/
structure TriageResult where
  summary : String
  potentialIssues : List String
  suggestedActions : List String
deriving Repr, DecidableEq, BEq

/-- Lifecycle status of a remote task. -/
inductive TaskStatusKind where
  | PENDING
  | PROCESSING
  | SUCCESS
  | FAILED
deriving Repr, DecidableEq, BEq

/-- Poll response shape (`TriageStatus` in `types.ts`). -/
structure TriageStatus where
  status : TaskStatusKind
  message : String
  result : Option TriageResult
deriving Repr, DecidableEq, BEq

/-- Validator response shape (`ValidationResult` in `types.ts`). -/
structure ValidationResult where
  isSufficient : Bool
  clarifyingQuestion : String
  summary : String
deriving Repr, DecidableEq, BEq

/-- One transcript entry (`ChatMessage`).  Identifiers are abstracted to
naturals allocated by a counter. -/
structure ChatMessage where
  id : Nat
  sender : Sender
  text : Option String
  options : List String
  requiresFileUpload : Bool
  result : Option TriageResult
  isLoading : Bool
deriving Repr, DecidableEq, BEq

/-- Orchestrator phase (`ProcessingState` in `types.ts`). -/
inductive ProcessingState where
  | idle
  | awaiting_user_input
  | validating_description
  | awaiting_confirmation
  | processing
  | complete
  | error
  | transitioning
  | deep_dive
deriving Repr, DecidableEq, BEq

/-- Log collection mode (`LogUploadMode`). -/
inductive LogUploadMode where
  | none
  | single
  | compare_good
  | compare_bad
deriving Repr, DecidableEq, BEq

/-- Semantic tag of an uploaded artifact (`UploadedLog.type`). -/
inductive LogType where
  | bad1
  | good
  | bad2
deriving Repr, DecidableEq, BEq

/-- One uploaded artifact; the file is abstracted to its text content. -/
structure UploadedLog where
  content : String
  type : LogType
deriving Repr, DecidableEq, BEq

/-- One interview step (`Question` in `types.ts`); absent options are the
empty list. -/
structure Question where
  id : String
  text : String
  options : List String
deriving Repr, DecidableEq, BEq

/-! ## String containment (JavaScript `String.prototype.includes`) -/

/-- Check that the first character list occurs at the start of the
second. -/
def startsWithChars : List Char → List Char → Bool
  | [], _ => true
  | _ :: _, [] => false
  | a :: as, b :: bs => a == b && startsWithChars as bs

/-- Check that the first character list occurs contiguously anywhere in
the second. -/
def occursInChars (needle : List Char) : List Char → Bool
  | [] => needle.isEmpty
  | b :: bs => startsWithChars needle (b :: bs) || occursInChars needle bs

/-- JavaScript `s.includes(pat)` on strings. -/
def stringIncludes (s pat : String) : Bool :=
  occursInChars pat.toList s.toList

/-- JavaScript `s.trim()`: strip leading and trailing whitespace. -/
def jsTrim (s : String) : String :=
  String.mk (((s.toList.dropWhile Char.isWhitespace).reverse.dropWhile Char.isWhitespace).reverse)

/-! ## The interview script (`TRIAGE_QUESTIONS` in `constants.ts`) -/

/-- The fixed, ordered interview script. -/
def TRIAGE_QUESTIONS : List Question :=
  [ { id := "tech_area",
      text := "First, which technical area does this issue belong to?",
      options := ["Frontend", "Backend", "Database", "Infrastructure/DevOps"] },
    { id := "environment",
      text := "In which environment did the issue occur?",
      options := ["Local Development", "Staging/QA", "Production", "Other"] },
    { id := "impact",
      text := "What is the impact of this issue?",
      options := ["Single User", "Multiple Users", "System Wide Outage", "Performance Degradation"] },
    { id := "usecase_description",
      text := "Please describe what you were doing, what you observed, and what you expected to happen.",
      options := [] },
    { id := "comparison_choice",
      text := "To help with the analysis, would you like to compare the logs from the incident with another log file?",
      options :=
        [ "Yes, I have a \"good\" log file to compare against.",
          "Yes, I have another \"bad\" log file to compare.",
          "No, I only have one log file." ] } ]

/-! ## Association lists for answer maps and the task store -/

/-- Update-or-append on an association list, matching the behaviour of a
JavaScript object spread `\x7b ...prev, key: value \x7d`: an existing key
keeps its position and receives the new value, a new key is appended. -/
def setAnswer : List (String × String) → String → String → List (String × String)
  | [], k, v => [(k, v)]
  | (k0, v0) :: rest, k, v =>
      if k0 = k then (k, v) :: rest else (k0, v0) :: setAnswer rest k v

/-- Lookup in an association list of answers. -/
def lookupAnswer (m : List (String × String)) (k : String) : Option String :=
  (m.find? (fun p => p.1 == k)).map (fun p => p.2)

/-! ## The mock task service (`services/geminiService.ts`) -/

/-- Stored record for one task in the in-memory task store. -/
structure TaskRecord where
  status : TaskStatusKind
  result : Option TriageResult
  logs : List UploadedLog
  userAnswers : List (String × String)
deriving Repr, DecidableEq, BEq

/-- The in-memory task store, keyed by task id. -/
abbrev TaskStore := List (String × TaskRecord)

/-- Lookup a task by id. -/
def lookupTask (store : TaskStore) (tid : String) : Option TaskRecord :=
  (List.find? (fun p => p.1 == tid) store).map (fun p => p.2)

/-- Replace the record stored under an id (no-op for an absent id). -/
def updateTask (store : TaskStore) (tid : String) (t : TaskRecord) : TaskStore :=
  List.map (fun p => if p.1 == tid then (tid, t) else p) store

/-- Task submission (`performTriage`): store a fresh `PENDING` record
under the (generated, here supplied) task id. -/
def performTriage (tid : String) (logs : List UploadedLog)
    (answers : List (String × String)) (store : TaskStore) : TaskStore :=
  store ++ [(tid, { status := .PENDING, result := Option.none, logs := logs, userAnswers := answers })]

/-- Task cancellation (`cancelTriage`): a still-live (`PENDING` or
`PROCESSING`) task becomes `FAILED`; a terminal or unknown task is left
alone. -/
def cancelTriage (tid : String) (store : TaskStore) : TaskStore :=
  match lookupTask store tid with
  | Option.some t =>
      if t.status = .PENDING ∨ t.status = .PROCESSING then
        updateTask store tid { t with status := .FAILED }
      else store
  | Option.none => store

/-- Poll (`pollTriageStatus`).  Returns the reported status, the updated
store, and a flag recording whether this poll fired off the background
analysis call (`callGeminiApi`), which happens exactly on the first poll
of a `PENDING` task. -/
def pollTriageStatus (tid : String) (store : TaskStore) :
    TriageStatus × TaskStore × Bool :=
  match lookupTask store tid with
  | Option.none => (⟨.FAILED, "Task not found.", Option.none⟩, store, false)
  | Option.some task =>
      if task.status = .SUCCESS ∨ task.status = .FAILED then
        (⟨task.status,
          if task.status = .FAILED then "Analysis failed or was cancelled." else "Complete",
          task.result⟩, store, false)
      else if task.status = .PENDING then
        (⟨.PROCESSING, "AI is reviewing the logs...", Option.none⟩,
          updateTask store tid { task with status := .PROCESSING }, true)
      else
        (⟨.PROCESSING, "Generating summary and actions...", Option.none⟩, store, false)

/-- Completion continuation of `callGeminiApi`: when the parsed result
arrives, the task is marked `SUCCESS` and the result attached only if the
task is still `PROCESSING`; otherwise the store is untouched. -/
def callGeminiApiSuccess (tid : String) (r : TriageResult) (store : TaskStore) : TaskStore :=
  match lookupTask store tid with
  | Option.some t =>
      if t.status = .PROCESSING then
        updateTask store tid { t with status := .SUCCESS, result := Option.some r }
      else store
  | Option.none => store

/-- Error continuation of `callGeminiApi` (its catch block): an existing
task is marked `FAILED`, an unknown id is ignored. -/
def callGeminiApiFailure (tid : String) (store : TaskStore) : TaskStore :=
  match lookupTask store tid with
  | Option.some t => updateTask store tid { t with status := .FAILED }
  | Option.none => store

/-! ## Orchestrator state (`ChatPage` in the conversation component)

The React state hooks and refs become record fields.  In-flight
asynchronous calls are recorded when issued and consumed when their
completion event is delivered; live `setTimeout` timers for polling are a
list of (identifier, delay) pairs.  `pollingTimeoutId` mirrors
`pollingTimeoutIdRef`, which can dangle on an already-fired timer.  The
fields `validatorCalls`, `confirmStepsShown` and `cancelsIssued` are ghost
observers: they count issued validator calls, entries into the
confirmation step, and remote cancel requests. -/

/-- Bot typing delay constant (`BOT_TYPING_DELAY`). -/
def BOT_TYPING_DELAY : Nat := 500

/-- Fixed polling delay constant (`POLLING_INTERVAL`). -/
def POLLING_INTERVAL : Nat := 2000

/-- Full orchestrator state of the conversation component. -/
structure OrchState where
  messages : List ChatMessage
  userAnswers : List (String × String)
  processingState : ProcessingState
  isInClarificationLoop : Bool
  logUploadMode : LogUploadMode
  uploadedLogs : List UploadedLog
  restoredText : Option String
  completedResult : Option TriageResult
  completedTaskId : Option String
  currentQuestionIndex : Nat
  description : String
  triageTaskId : Option String
  pollingTimeoutId : Option Nat
  liveTimers : List (Nat × Nat)
  nextTimerId : Nat
  inflightValidators : List Nat
  inflightSubmits : List Nat
  inflightPolls : List (Nat × String)
  nextCallId : Nat
  nextMsgId : Nat
  validatorCalls : Nat
  confirmStepsShown : Nat
  cancelsIssued : List String
deriving Repr, DecidableEq

/-- Events driving the orchestrator: user interactions and completions of
asynchronous work.  Completion events name the in-flight call or timer
they resolve; delivering an event for a call that is not in flight is a
no-op, and delivery consumes the call, so each completion happens at most
once but may arrive arbitrarily late. -/
inductive Event where
  | sessionStart
  | userRespond (response : String)
  | userUpload (name content : String)
  | stop
  | reset
  | validatorResponse (callId : Nat) (ok : Bool) (vr : ValidationResult)
  | submitResponse (callId : Nat) (ok : Bool) (taskId : String)
  | timerFire (timerId : Nat)
  | pollResponse (callId : Nat) (ok : Bool) (st : TriageStatus)
deriving Repr, DecidableEq

/-- Append a message to the transcript with a fresh identifier
(`addMessage` in the component). -/
def addMsg (s : OrchState) (sender : Sender) (text : Option String)
    (options : List String) (requiresFileUpload : Bool)
    (result : Option TriageResult) (isLoading : Bool) : OrchState :=
  { s with
    messages := s.messages ++
      [{ id := s.nextMsgId, sender := sender, text := text, options := options,
         requiresFileUpload := requiresFileUpload, result := result, isLoading := isLoading }],
    nextMsgId := s.nextMsgId + 1 }

/-- Resolution of the comparison-choice answer into a collection mode,
exactly as `handleUserResponse` branches on substrings of the answer. -/
def resolveComparisonMode (response : String) : LogUploadMode :=
  if stringIncludes response "\"good\" log" then .compare_good
  else if stringIncludes response "another \"bad\" log" then .compare_bad
  else .single

/-- Tag assigned to the next upload as a function of the collection mode
and of how many artifacts were already collected (from
`handleFileUpload`). -/
def logTypeFor (mode : LogUploadMode) (count : Nat) : LogType :=
  match mode with
  | .compare_good => if count = 0 then .bad1 else .good
  | .compare_bad => if count = 0 then .bad1 else .bad2
  | _ => .bad1

/-- Number of artifacts required by a collection mode (from
`handleFileUpload`). -/
def expectedLogCount (mode : LogUploadMode) : Nat :=
  if mode = .single then 1 else 2

/-- Human label of a tag as printed in the upload transcript message. -/
def logTypeLabel : LogType → String
  | .bad1 => "bad"
  | .good => "good"
  | .bad2 => "bad"

/-- Question sequencer (`askQuestion`): present the question at the
cursor, or the artifact-collection prompt dictated by the resolved mode
once the cursor is past the end, then open the input.  The bot-typing
delays around it carry no guards in the source and are collapsed. -/
def askQuestion (s : OrchState) : OrchState :=
  let s :=
    match TRIAGE_QUESTIONS[s.currentQuestionIndex]? with
    | Option.some q => addMsg s .bot (Option.some q.text) q.options false Option.none false
    | Option.none =>
        match s.logUploadMode with
        | .single =>
            addMsg s .bot (Option.some "Great. Now, please upload the relevant log file for analysis.")
              [] true Option.none false
        | .compare_good =>
            if s.uploadedLogs.length = 0 then
              addMsg s .bot (Option.some "Understood. First, please upload the \x27bad\x27 log file from when the issue occurred.")
                [] true Option.none false
            else
              addMsg s .bot (Option.some "Got it. Now, please upload the \x27good\x27 log file from when things were working correctly.")
                [] true Option.none false
        | .compare_bad =>
            if s.uploadedLogs.length = 0 then
              addMsg s .bot (Option.some "Okay. Please upload the first \x27bad\x27 log file.")
                [] true Option.none false
            else
              addMsg s .bot (Option.some "Thanks. Now, please upload the second \x27bad\x27 log file for comparison.")
                [] true Option.none false
        | .none => s
  { s with processingState := .awaiting_user_input }

/-- Issue a validator call (`validateFullDescription` up to its await):
enter the validating phase, add the loading indicator, and record the
in-flight call. -/
def validateFullDescription (s : OrchState) : OrchState :=
  let s := { s with processingState := .validating_description }
  let s := addMsg s .bot (Option.some "Analyzing description...") [] false Option.none true
  { s with
    inflightValidators := s.inflightValidators ++ [s.nextCallId],
    nextCallId := s.nextCallId + 1,
    validatorCalls := s.validatorCalls + 1 }

/-- Continuation of `validateFullDescription` after the validator call
settles.  `ok = false` models the call throwing.  Both outcomes first
compare the current phase against `validating_description` and return
without touching anything else on mismatch, exactly as the source checks
`processingStateRef.current`. -/
def applyValidatorResponse (s : OrchState) (ok : Bool) (vr : ValidationResult) : OrchState :=
  if ok then
    if s.processingState ≠ .validating_description then s
    else
      let s := { s with messages := s.messages.filter (fun m => !m.isLoading) }
      if vr.isSufficient then
        let s := { s with isInClarificationLoop := false }
        let s := addMsg s .bot (Option.some vr.summary) [] false Option.none false
        { s with processingState := .awaiting_confirmation,
                 confirmStepsShown := s.confirmStepsShown + 1 }
      else
        let s := addMsg s .bot (Option.some vr.clarifyingQuestion) [] false Option.none false
        { s with processingState := .awaiting_user_input }
  else
    if s.processingState ≠ .validating_description then s
    else
      let s := { s with messages := s.messages.filter (fun m => !m.isLoading) }
      let s := addMsg s .bot (Option.some "There was an issue validating the description. Let\x27s proceed for now.")
        [] false Option.none false
      let s := { s with
        userAnswers := setAnswer s.userAnswers "usecase_description" (jsTrim s.description),
        currentQuestionIndex := s.currentQuestionIndex + 1 }
      askQuestion s

/-- User answer handler (`handleUserResponse`).  The confirmation check
reads the phase as it was when the click was delivered
(`processingStateRef` has not yet seen the `transitioning` write). -/
def handleUserResponse (s : OrchState) (response : String) : OrchState :=
  let entryPhase := s.processingState
  let s := { s with processingState := .transitioning, restoredText := Option.none }
  let s := addMsg s .user (Option.some response) [] false Option.none false
  if entryPhase = .awaiting_confirmation then
    if response = "Yes, proceed" then
      let s := { s with
        userAnswers := setAnswer s.userAnswers "usecase_description" (jsTrim s.description),
        currentQuestionIndex := s.currentQuestionIndex + 1 }
      askQuestion s
    else
      let s := addMsg s .bot (Option.some "My apologies. Please provide more details or correct my understanding.")
        [] false Option.none false
      { s with isInClarificationLoop := true, processingState := .awaiting_user_input }
  else
    match TRIAGE_QUESTIONS[s.currentQuestionIndex]? with
    | Option.none => s
    | Option.some q =>
        if q.id = "usecase_description" ∨ s.isInClarificationLoop then
          let s :=
            if s.isInClarificationLoop then
              { s with description := s.description ++ "\n\nUser refinement: " ++ response }
            else
              { s with description := response, isInClarificationLoop := true }
          validateFullDescription s
        else if q.id = "comparison_choice" then
          askQuestion { s with
            logUploadMode := resolveComparisonMode response,
            currentQuestionIndex := s.currentQuestionIndex + 1 }
        else
          askQuestion { s with
            userAnswers := setAnswer s.userAnswers q.id response,
            currentQuestionIndex := s.currentQuestionIndex + 1 }

/-- Upload handler (`handleFileUpload`): tag and record the artifact;
below the required count ask for the next one, at the required count
enter the processing phase and issue the submission. -/
def handleFileUpload (s : OrchState) (name content : String) : OrchState :=
  let t := logTypeFor s.logUploadMode s.uploadedLogs.length
  let s := addMsg s .user
    (Option.some ("Uploaded file: " ++ name ++ " (as " ++ logTypeLabel t ++ " log)"))
    [] false Option.none false
  let s := { s with uploadedLogs := s.uploadedLogs ++ [{ content := content, type := t }] }
  if s.uploadedLogs.length < expectedLogCount s.logUploadMode then
    askQuestion s
  else
    let s := { s with processingState := .processing }
    let s := addMsg s .bot (Option.some "Submitting logs for analysis...") [] false Option.none true
    { s with
      inflightSubmits := s.inflightSubmits ++ [s.nextCallId],
      nextCallId := s.nextCallId + 1 }

/-- Clear the scheduled poll through the `pollingTimeoutIdRef` and null
the ref, as `handleStop` and `handleReset` do. -/
def clearPollTimeout (s : OrchState) : OrchState :=
  match s.pollingTimeoutId with
  | Option.some t =>
      { s with liveTimers := s.liveTimers.filter (fun p => p.1 != t),
               pollingTimeoutId := Option.none }
  | Option.none => s

/-- Clear the scheduled poll through the ref without nulling it, as the
poll callback's bare `clearTimeout` calls do. -/
def cancelScheduledPoll (s : OrchState) : OrchState :=
  match s.pollingTimeoutId with
  | Option.some t => { s with liveTimers := s.liveTimers.filter (fun p => p.1 != t) }
  | Option.none => s

/-- Stop handler (`handleStop`). -/
def handleStop (s : OrchState) : OrchState :=
  let s := clearPollTimeout s
  if s.processingState = .validating_description then
    match s.messages.reverse.find? (fun m => m.sender == Sender.user) with
    | Option.some m =>
        if (TRIAGE_QUESTIONS[s.currentQuestionIndex]?).map Question.id
              = Option.some "usecase_description" ∨ s.isInClarificationLoop then
          { s with restoredText := m.text,
                   messages := s.messages.filter (fun x => !x.isLoading && x.id != m.id),
                   processingState := .awaiting_user_input }
        else
          { s with messages := s.messages.filter (fun x => !x.isLoading),
                   processingState := .awaiting_user_input }
    | Option.none =>
        { s with messages := s.messages.filter (fun x => !x.isLoading),
                 processingState := .awaiting_user_input }
  else if s.processingState = .processing then
    let s :=
      match s.triageTaskId with
      | Option.some tid =>
          { s with cancelsIssued := s.cancelsIssued ++ [tid], triageTaskId := Option.none }
      | Option.none => s
    let s := { s with messages := s.messages.filter (fun x => !x.isLoading) }
    let s := addMsg s .bot (Option.some "Analysis stopped by user.") [] false Option.none false
    { s with processingState := .error }
  else s

/-- Reset handler (`handleReset`). -/
def handleReset (s : OrchState) : OrchState :=
  let s := clearPollTimeout s
  { s with messages := [], userAnswers := [], currentQuestionIndex := 0,
           triageTaskId := Option.none, description := "",
           isInClarificationLoop := false, logUploadMode := .none,
           uploadedLogs := [], restoredText := Option.none,
           processingState := .idle }

/-- Continuation of the submit call inside `handleFileUpload`.  Success
stores the task id and schedules the first poll with no phase check at
all; failure is guarded by the phase check in the catch block. -/
def applySubmitResponse (s : OrchState) (ok : Bool) (tid : String) : OrchState :=
  if ok then
    let s := { s with triageTaskId := Option.some tid }
    { s with liveTimers := s.liveTimers ++ [(s.nextTimerId, POLLING_INTERVAL)],
             pollingTimeoutId := Option.some s.nextTimerId,
             nextTimerId := s.nextTimerId + 1 }
  else
    if s.processingState ≠ .processing then s
    else
      let s := addMsg s .bot (Option.some "Failed to start triage: An unknown error occurred.")
        [] false Option.none false
      { s with processingState := .error }

/-- Continuation of the `poll` closure after `pollTriageStatus` settles;
`ok = false` models the call throwing.  Both paths first compare the
current phase against `processing`. -/
def applyPollResponse (s : OrchState) (ok : Bool) (st : TriageStatus) : OrchState :=
  if ok then
    if s.processingState ≠ .processing then s
    else
      let s := { s with messages := (s.messages.map
                  (fun (m : ChatMessage) => if m.isLoading then { m with text := Option.some st.message } else m)) }
      match st.result with
      | Option.some r =>
          if st.status = .SUCCESS then
            let s := { s with messages := s.messages.filter (fun m => !m.isLoading) }
            let s := addMsg s .bot Option.none [] false (Option.some r) false
            let s := { s with processingState := .complete }
            let s := cancelScheduledPoll s
            { s with completedResult := Option.some r, completedTaskId := s.triageTaskId }
          else if st.status = .FAILED then
            let s := { s with messages := s.messages.filter (fun m => !m.isLoading) }
            let s := addMsg s .bot
              (Option.some ("Analysis failed: " ++ (if st.message = "" then "Please try again." else st.message)))
              [] false Option.none false
            let s := { s with processingState := .error }
            cancelScheduledPoll s
          else
            { s with liveTimers := s.liveTimers ++ [(s.nextTimerId, POLLING_INTERVAL)],
                     pollingTimeoutId := Option.some s.nextTimerId,
                     nextTimerId := s.nextTimerId + 1 }
      | Option.none =>
          if st.status = .FAILED then
            let s := { s with messages := s.messages.filter (fun m => !m.isLoading) }
            let s := addMsg s .bot
              (Option.some ("Analysis failed: " ++ (if st.message = "" then "Please try again." else st.message)))
              [] false Option.none false
            let s := { s with processingState := .error }
            cancelScheduledPoll s
          else
            { s with liveTimers := s.liveTimers ++ [(s.nextTimerId, POLLING_INTERVAL)],
                     pollingTimeoutId := Option.some s.nextTimerId,
                     nextTimerId := s.nextTimerId + 1 }
  else
    if s.processingState ≠ .processing then s
    else
      let s := addMsg s .bot (Option.some "An error occurred while checking the analysis status.")
        [] false Option.none false
      let s := { s with processingState := .error }
      cancelScheduledPoll s

/-- Initial greeting effect: when the phase is `idle` the component
greets and asks the first question. -/
def startSession (s : OrchState) : OrchState :=
  if s.processingState = .idle then
    askQuestion (addMsg s
      .bot (Option.some "Hello! I\x27m here to help you triage your log files. Let\x27s start with a few questions to understand the context.")
      [] false Option.none false)
  else s

/-- One event-queue step of the orchestrator. -/
def step (s : OrchState) (e : Event) : OrchState :=
  match e with
  | .sessionStart => startSession s
  | .userRespond r => handleUserResponse s r
  | .userUpload name content => handleFileUpload s name content
  | .stop => handleStop s
  | .reset => handleReset s
  | .validatorResponse c ok vr =>
      if s.inflightValidators.contains c then
        applyValidatorResponse
          { s with inflightValidators := s.inflightValidators.filter (fun x => x != c) } ok vr
      else s
  | .submitResponse c ok tid =>
      if s.inflightSubmits.contains c then
        applySubmitResponse
          { s with inflightSubmits := s.inflightSubmits.filter (fun x => x != c) } ok tid
      else s
  | .timerFire t =>
      if s.liveTimers.any (fun p => p.1 == t) then
        let s := { s with liveTimers := s.liveTimers.filter (fun p => p.1 != t) }
        match s.triageTaskId with
        | Option.none => s
        | Option.some tid =>
            { s with inflightPolls := s.inflightPolls ++ [(s.nextCallId, tid)],
                     nextCallId := s.nextCallId + 1 }
      else s
  | .pollResponse c ok st =>
      if s.inflightPolls.any (fun p => p.1 == c) then
        applyPollResponse
          { s with inflightPolls := s.inflightPolls.filter (fun p => p.1 != c) } ok st
      else s

/-- Run a list of events from a state. -/
def run (s : OrchState) (es : List Event) : OrchState :=
  es.foldl step s

/-- Pristine component state on mount. -/
def initState : OrchState :=
  { messages := [], userAnswers := [], processingState := .idle,
    isInClarificationLoop := false, logUploadMode := .none, uploadedLogs := [],
    restoredText := Option.none, completedResult := Option.none,
    completedTaskId := Option.none, currentQuestionIndex := 0, description := "",
    triageTaskId := Option.none, pollingTimeoutId := Option.none, liveTimers := [],
    nextTimerId := 0, inflightValidators := [], inflightSubmits := [],
    inflightPolls := [], nextCallId := 0, nextMsgId := 0, validatorCalls := 0,
    confirmStepsShown := 0, cancelsIssued := [] }

/-! ## Helper lemmas -/

/-- Updating an answer key makes it readable back. -/
theorem lookupAnswer_setAnswer (m : List (String × String)) (k v : String) :
    lookupAnswer (setAnswer m k v) k = Option.some v := by
  induction m with
  | nil => simp [setAnswer, lookupAnswer]
  | cons p rest ih =>
      by_cases h : p.1 = k
      · simp [setAnswer, lookupAnswer, h]
      · simpa [setAnswer, lookupAnswer, List.find?, h] using ih

/-- Frame fact for `askQuestion`: the phase always ends at
`awaiting_user_input`. -/
theorem askQuestion_processingState (s : OrchState) :
    (askQuestion s).processingState = .awaiting_user_input := by
  unfold askQuestion
  split <;> [simp [addMsg]; split <;> (try split) <;> simp [addMsg]]

/-- Frame fact for `askQuestion`: the cursor is untouched. -/
theorem askQuestion_currentQuestionIndex (s : OrchState) :
    (askQuestion s).currentQuestionIndex = s.currentQuestionIndex := by
  unfold askQuestion
  split <;> [simp [addMsg]; split <;> (try split) <;> simp [addMsg]]

/-- Frame fact for `askQuestion`: the answer map is untouched. -/
theorem askQuestion_userAnswers (s : OrchState) :
    (askQuestion s).userAnswers = s.userAnswers := by
  unfold askQuestion
  split <;> [simp [addMsg]; split <;> (try split) <;> simp [addMsg]]

/-- Frame fact for `askQuestion`: the accumulated description is
untouched. -/
theorem askQuestion_description (s : OrchState) :
    (askQuestion s).description = s.description := by
  unfold askQuestion
  split <;> [simp [addMsg]; split <;> (try split) <;> simp [addMsg]]

/-- Frame fact for `askQuestion`: the clarification-loop flag is
untouched. -/
theorem askQuestion_isInClarificationLoop (s : OrchState) :
    (askQuestion s).isInClarificationLoop = s.isInClarificationLoop := by
  unfold askQuestion
  split <;> [simp [addMsg]; split <;> (try split) <;> simp [addMsg]]

/-- Frame fact for `askQuestion`: in-flight validator calls are
untouched. -/
theorem askQuestion_inflightValidators (s : OrchState) :
    (askQuestion s).inflightValidators = s.inflightValidators := by
  unfold askQuestion
  split <;> [simp [addMsg]; split <;> (try split) <;> simp [addMsg]]

/-- Frame fact for `askQuestion`: the validator-call counter is
untouched. -/
theorem askQuestion_validatorCalls (s : OrchState) :
    (askQuestion s).validatorCalls = s.validatorCalls := by
  unfold askQuestion
  split <;> [simp [addMsg]; split <;> (try split) <;> simp [addMsg]]

/-- Frame fact for `askQuestion`: the confirmation-step counter is
untouched. -/
theorem askQuestion_confirmStepsShown (s : OrchState) :
    (askQuestion s).confirmStepsShown = s.confirmStepsShown := by
  unfold askQuestion
  split <;> [simp [addMsg]; split <;> (try split) <;> simp [addMsg]]

/-- Frame fact for `askQuestion`: the call-identifier counter is
untouched. -/
theorem askQuestion_nextCallId (s : OrchState) :
    (askQuestion s).nextCallId = s.nextCallId := by
  unfold askQuestion
  split <;> [simp [addMsg]; split <;> (try split) <;> simp [addMsg]]

/-- Frame fact for `askQuestion`: live timers are untouched. -/
theorem askQuestion_liveTimers (s : OrchState) :
    (askQuestion s).liveTimers = s.liveTimers := by
  unfold askQuestion
  split <;> [simp [addMsg]; split <;> (try split) <;> simp [addMsg]]

/-- Frame fact for `askQuestion`: in-flight submissions are untouched. -/
theorem askQuestion_inflightSubmits (s : OrchState) :
    (askQuestion s).inflightSubmits = s.inflightSubmits := by
  unfold askQuestion
  split <;> [simp [addMsg]; split <;> (try split) <;> simp [addMsg]]

/-- Frame fact for `askQuestion`: in-flight polls are untouched. -/
theorem askQuestion_inflightPolls (s : OrchState) :
    (askQuestion s).inflightPolls = s.inflightPolls := by
  unfold askQuestion
  split <;> [simp [addMsg]; split <;> (try split) <;> simp [addMsg]]

/-- Frame fact for `askQuestion`: the task id is untouched. -/
theorem askQuestion_triageTaskId (s : OrchState) :
    (askQuestion s).triageTaskId = s.triageTaskId := by
  unfold askQuestion
  split <;> [simp [addMsg]; split <;> (try split) <;> simp [addMsg]]

/-- Frame fact for `askQuestion`: issued cancels are untouched. -/
theorem askQuestion_cancelsIssued (s : OrchState) :
    (askQuestion s).cancelsIssued = s.cancelsIssued := by
  unfold askQuestion
  split <;> [simp [addMsg]; split <;> (try split) <;> simp [addMsg]]

/-- Evaluation of the interview script at the description cursor. -/
theorem question_at_three :
    TRIAGE_QUESTIONS[(3 : Nat)]? =
      Option.some { id := "usecase_description",
                    text := "Please describe what you were doing, what you observed, and what you expected to happen.",
                    options := [] } := by
  rfl

/-- Guard lemma: a validator completion delivered while the phase is not
`validating_description` only consumes the in-flight call and changes
nothing else; a poll completion delivered while the phase is not
`processing` likewise. -/
theorem stale_completion_dropped (s : OrchState) (c : Nat) (ok : Bool)
    (vr : ValidationResult) (st : TriageStatus) :
    (s.inflightValidators.contains c = true →
      s.processingState ≠ .validating_description →
      step s (.validatorResponse c ok vr) =
        { s with inflightValidators := s.inflightValidators.filter (fun x => x != c) }) ∧
    (s.inflightPolls.any (fun p => p.1 == c) = true →
      s.processingState ≠ .processing →
      step s (.pollResponse c ok st) =
        { s with inflightPolls := s.inflightPolls.filter (fun p => p.1 != c) }) := by
  constructor
  · intro hin hph
    cases ok <;>
      (simp only [step]; rw [if_pos hin]; simp [applyValidatorResponse, hph])
  · intro hin hph
    cases ok <;>
      (simp only [step]; rw [if_pos hin]; simp [applyPollResponse, hph])

/-- Shape of `handleStop` in the `processing` phase: the loading message
is removed, a stopped notice is appended, the phase becomes `error`, and
in-flight calls are untouched. -/
theorem handleStop_processing (s : OrchState) (h : s.processingState = .processing) :
    (handleStop s).processingState = .error ∧
    (handleStop s).messages = s.messages.filter (fun x => !x.isLoading) ++
      [{ id := s.nextMsgId, sender := .bot,
         text := Option.some "Analysis stopped by user.", options := [],
         requiresFileUpload := false, result := Option.none, isLoading := false }] ∧
    (handleStop s).inflightPolls = s.inflightPolls ∧
    (handleStop s).inflightValidators = s.inflightValidators ∧
    (handleStop s).completedResult = s.completedResult := by
  unfold handleStop clearPollTimeout
  cases hp : s.pollingTimeoutId <;> cases ht : s.triageTaskId <;>
    simp [h, ht, addMsg]

/-! ## Concrete scenario traces used by witnesses and counterexamples -/

/-- Events answering the three closed-choice questions after the session
start; they leave the interview at the description question. -/
def interviewEvents : List Event :=
  [.sessionStart, .userRespond "Frontend", .userRespond "Local Development",
   .userRespond "Single User"]

/-- Events of a straight single-log flow up to the submission: the
description is accepted first try, the comparison choice selects
`single`, one artifact is uploaded and a submit call (id 1) is issued. -/
def singleFlowEvents : List Event :=
  interviewEvents ++
    [.userRespond "the save action returned a 500 and I expected a success message",
     .validatorResponse 0 true ⟨true, "", "Summary of my understanding."⟩,
     .userRespond "Yes, proceed",
     .userRespond "No, I only have one log file.",
     .userUpload "app.log" "log line one"]

/-- State of the single-log flow while the first poll call (id 2) is in
flight for task `task_1`. -/
def pollingState : OrchState :=
  run initState (singleFlowEvents ++ [.submitResponse 1 true "task_1", .timerFire 0])

/-- State with a validator call (id 0) still in flight for the first
description round, stopped, and a second validator call (id 1) in flight
for the refined description: the phase is `validating_description`
again. -/
def staleValidatorState : OrchState :=
  run initState (interviewEvents ++ [.userRespond "d1", .stop, .userRespond "d2"])

/-- State stopped while the submit call (id 1) is still in flight. -/
def stoppedSubmitState : OrchState :=
  run initState (singleFlowEvents ++ [.stop])

/-! ## Claim theorems -/

/-- Counterexample to C1 as stated: `staleValidatorState` holds a stale
first-round validator call 0 (issued before a Stop) and a current call 1,
and its phase is a later round's `validating_description`; delivering the
stale response for call 0 changes the state — the transcript gains the
stale summary and the phase jumps to `awaiting_confirmation` — instead of
being discarded, because the source compares only the current phase
against the literal phase name, never a per-call generation. -/
theorem stale_validator_response_mutates_state :
    staleValidatorState.processingState = .validating_description ∧
    staleValidatorState.inflightValidators = [0, 1] ∧
    step staleValidatorState (.validatorResponse 0 true ⟨true, "", "S1"⟩) ≠
      staleValidatorState ∧
    (step staleValidatorState
        (.validatorResponse 0 true ⟨true, "", "S1"⟩)).processingState =
      .awaiting_confirmation := by
  decide

/-- C1 as amended: the validator-response, poll-response and
submit-failure callbacks compare the current phase against the fixed
phase in which calls of their kind are issued (`validating_description`
for the validator, `processing` for poll and submit) and discard their
result entirely on mismatch, only consuming the in-flight call.  No
per-call generation is captured, so this discarding does not extend to a
stale response arriving once the phase has re-entered the same value
(see the counterexample), and the submit-success continuation performs
no check at all. -/
theorem phase_guard_discards_mismatched_responses (s : OrchState) (c : Nat)
    (ok : Bool) (vr : ValidationResult) (st : TriageStatus) (tid : String) :
    (s.inflightValidators.contains c = true →
      s.processingState ≠ .validating_description →
      step s (.validatorResponse c ok vr) =
        { s with inflightValidators := s.inflightValidators.filter (fun x => x != c) }) ∧
    (s.inflightPolls.any (fun p => p.1 == c) = true →
      s.processingState ≠ .processing →
      step s (.pollResponse c ok st) =
        { s with inflightPolls := s.inflightPolls.filter (fun p => p.1 != c) }) ∧
    (s.inflightSubmits.contains c = true →
      s.processingState ≠ .processing →
      step s (.submitResponse c false tid) =
        { s with inflightSubmits := s.inflightSubmits.filter (fun x => x != c) }) := by
  refine ⟨(stale_completion_dropped s c ok vr st).1,
          (stale_completion_dropped s c ok vr st).2, ?_⟩
  intro hin hph
  simp only [step]
  rw [if_pos hin]
  simp [applySubmitResponse, hph]

/-- Witness for the amended C1: a stale validator response after Stop, a
stale poll response after Stop, and a stale submit failure after Stop
are each dropped at concrete reachable states. -/
theorem phase_guard_discards_mismatched_responses_witness :
    (step (step staleValidatorState .stop)
        (.validatorResponse 0 true ⟨true, "", "S1"⟩) =
      { step staleValidatorState .stop with inflightValidators :=
          (step staleValidatorState .stop).inflightValidators.filter (fun x => x != 0) }) ∧
    (step (step pollingState .stop)
        (.pollResponse 2 true ⟨.SUCCESS, "Complete", Option.none⟩) =
      { step pollingState .stop with inflightPolls :=
          (step pollingState .stop).inflightPolls.filter (fun p => p.1 != 2) }) ∧
    (step stoppedSubmitState (.submitResponse 1 false "task_x") =
      { stoppedSubmitState with inflightSubmits :=
          stoppedSubmitState.inflightSubmits.filter (fun x => x != 1) }) :=
  ⟨(phase_guard_discards_mismatched_responses (step staleValidatorState .stop) 0 true
      ⟨true, "", "S1"⟩ ⟨.SUCCESS, "Complete", Option.none⟩ "task_x").1
      (by decide) (by decide),
   (phase_guard_discards_mismatched_responses (step pollingState .stop) 2 true
      ⟨true, "", "S1"⟩ ⟨.SUCCESS, "Complete", Option.none⟩ "task_x").2.1
      (by decide) (by decide),
   (phase_guard_discards_mismatched_responses stoppedSubmitState 1 false
      ⟨true, "", "S1"⟩ ⟨.SUCCESS, "Complete", Option.none⟩ "task_x").2.2
      (by decide) (by decide)⟩

/-- C4: the mode resolver is total and deterministic on the three fixed
comparison-choice phrasings, the required artifact count is 1 for
`single` and 2 otherwise, and the tagging function follows the fixed
table: every mode tags artifact 0 as `bad1`, `compare_good` tags
artifact 1 as `good`, and `compare_bad` tags artifact 1 as `bad2`. -/
theorem mode_resolver_table :
    resolveComparisonMode "Yes, I have a \"good\" log file to compare against." = .compare_good ∧
    resolveComparisonMode "Yes, I have another \"bad\" log file to compare." = .compare_bad ∧
    resolveComparisonMode "No, I only have one log file." = .single ∧
    expectedLogCount .single = 1 ∧
    expectedLogCount .compare_good = 2 ∧
    expectedLogCount .compare_bad = 2 ∧
    logTypeFor .single 0 = .bad1 ∧
    logTypeFor .compare_good 0 = .bad1 ∧
    logTypeFor .compare_bad 0 = .bad1 ∧
    logTypeFor .compare_good 1 = .good ∧
    logTypeFor .compare_bad 1 = .bad2 := by
  decide

/-- C5: polling a task whose status is already terminal (`SUCCESS` or
`FAILED`) returns the cached status and result, leaves the store
untouched, and does not trigger the analysis computation. -/
theorem poll_terminal_idempotent (store : TaskStore) (tid : String) (t : TaskRecord)
    (hfind : lookupTask store tid = Option.some t)
    (hterm : t.status = .SUCCESS ∨ t.status = .FAILED) :
    pollTriageStatus tid store =
      (⟨t.status,
        if t.status = .FAILED then "Analysis failed or was cancelled." else "Complete",
        t.result⟩, store, false) := by
  simp [pollTriageStatus, hfind, hterm]

/-- Witness for C5 at a concrete store holding one `SUCCESS` and one
`FAILED` task. -/
theorem poll_terminal_idempotent_witness :
    pollTriageStatus "t2"
        [("t2", { status := .FAILED, result := Option.none, logs := [], userAnswers := [] })] =
      (⟨.FAILED, "Analysis failed or was cancelled.", Option.none⟩,
        [("t2", { status := .FAILED, result := Option.none, logs := [], userAnswers := [] })],
        false) :=
  poll_terminal_idempotent
    [("t2", { status := .FAILED, result := Option.none, logs := [], userAnswers := [] })]
    "t2" { status := .FAILED, result := Option.none, logs := [], userAnswers := [] }
    (by decide) (by decide)

/-- C10: the background-analysis completion records `SUCCESS` and a
result only when the task is still `PROCESSING`; in particular a task
already `FAILED` (for instance by cancellation) is left exactly as it
is, so it never gains a result. -/
theorem completion_never_overwrites_failed (store : TaskStore) (tid : String)
    (r : TriageResult) (t : TaskRecord)
    (hfind : lookupTask store tid = Option.some t) :
    (t.status ≠ .PROCESSING → callGeminiApiSuccess tid r store = store) ∧
    (t.status = .FAILED →
      callGeminiApiSuccess tid r store = store ∧
      lookupTask (callGeminiApiSuccess tid r store) tid = Option.some t) := by
  refine ⟨fun h => ?_, fun h => ?_⟩
  · simp [callGeminiApiSuccess, hfind, h]
  · have : t.status ≠ .PROCESSING := by simp [h]
    simp [callGeminiApiSuccess, hfind, this, hfind]

/-- Witness for C10: a cancelled (hence `FAILED`) task survives a late
completion unchanged. -/
theorem completion_never_overwrites_failed_witness :
    (TaskStatusKind.FAILED ≠ TaskStatusKind.PROCESSING →
      callGeminiApiSuccess "t" ⟨"r", [], []⟩
          [("t", { status := .FAILED, result := Option.none, logs := [], userAnswers := [] })] =
        [("t", { status := .FAILED, result := Option.none, logs := [], userAnswers := [] })]) ∧
    (TaskStatusKind.FAILED = TaskStatusKind.FAILED →
      callGeminiApiSuccess "t" ⟨"r", [], []⟩
          [("t", { status := .FAILED, result := Option.none, logs := [], userAnswers := [] })] =
        [("t", { status := .FAILED, result := Option.none, logs := [], userAnswers := [] })] ∧
      lookupTask
          (callGeminiApiSuccess "t" ⟨"r", [], []⟩
            [("t", { status := .FAILED, result := Option.none, logs := [], userAnswers := [] })]) "t" =
        Option.some { status := .FAILED, result := Option.none, logs := [], userAnswers := [] }) :=
  completion_never_overwrites_failed
    [("t", { status := .FAILED, result := Option.none, logs := [], userAnswers := [] })]
    "t" ⟨"r", [], []⟩
    { status := .FAILED, result := Option.none, logs := [], userAnswers := [] }
    (by decide)

/-- C2: Stop issued while the phase is the post-submission `processing`
(polling) phase moves the phase to `error`; a late `Success` poll
response carrying a `TriageResult` that arrives afterwards is discarded,
so the final phase stays `error` and no message carrying a
`TriageResult` is ever appended to the transcript. -/
theorem stop_during_polling_blocks_late_success (s : OrchState) (c : Nat)
    (r : TriageResult) (msg : String)
    (hphase : s.processingState = .processing)
    (hin : s.inflightPolls.any (fun p => p.1 == c) = true)
    (hmsgs : ∀ m ∈ s.messages, m.result = Option.none) :
    (run s [.stop, .pollResponse c true ⟨.SUCCESS, msg, Option.some r⟩]).processingState
        = .error ∧
    (∀ m ∈ (run s [.stop, .pollResponse c true
        ⟨.SUCCESS, msg, Option.some r⟩]).messages, m.result = Option.none) ∧
    (run s [.stop, .pollResponse c true
        ⟨.SUCCESS, msg, Option.some r⟩]).completedResult = s.completedResult := by
  have hstop := handleStop_processing s hphase
  have hs1 : step s .stop = handleStop s := rfl
  have hrun : run s [.stop, .pollResponse c true ⟨.SUCCESS, msg, Option.some r⟩] =
      step (handleStop s) (.pollResponse c true ⟨.SUCCESS, msg, Option.some r⟩) := by
    simp [run, hs1]
  have hdrop := (stale_completion_dropped (handleStop s) c true
      ⟨true, "", ""⟩ ⟨.SUCCESS, msg, Option.some r⟩).2
      (by rw [hstop.2.2.1]; exact hin)
      (by rw [hstop.1]; intro hcontra; cases hcontra)
  rw [hrun, hdrop]
  refine ⟨by simpa using hstop.1, ?_, by simpa using hstop.2.2.2.2⟩
  intro m hm
  simp only at hm
  rw [hstop.2.1] at hm
  rcases List.mem_append.mp hm with hleft | hright
  · exact hmsgs m (List.mem_of_mem_filter hleft)
  · simp at hright
    simp [hright]

/-- Witness for C2 at the concrete polling state with in-flight poll 2. -/
theorem stop_during_polling_blocks_late_success_witness :
    (run pollingState [.stop, .pollResponse 2 true
        ⟨.SUCCESS, "Complete", Option.some ⟨"root cause", ["issue"], ["action"]⟩⟩]).processingState
        = .error ∧
    (∀ m ∈ (run pollingState [.stop, .pollResponse 2 true
        ⟨.SUCCESS, "Complete", Option.some ⟨"root cause", ["issue"], ["action"]⟩⟩]).messages,
      m.result = Option.none) ∧
    (run pollingState [.stop, .pollResponse 2 true
        ⟨.SUCCESS, "Complete", Option.some ⟨"root cause", ["issue"], ["action"]⟩⟩]).completedResult
        = pollingState.completedResult :=
  stop_during_polling_blocks_late_success pollingState 2
    ⟨"root cause", ["issue"], ["action"]⟩ "Complete"
    (by decide) (by decide)
    (@of_decide_eq_true _ (List.decidableBAll _ _) (by rfl))

/-- C9: Stop issued while the phase is `validatingDescription` removes
the pending loading indicator from the transcript, restores the most
recently user-submitted text into the input (removing that user message),
and returns the phase to the awaiting-input state, all without touching
the in-flight validator call and without issuing any remote cancel. -/
theorem stop_during_validation_restores_input (s : OrchState) (m : ChatMessage)
    (hphase : s.processingState = .validating_description)
    (hfind : s.messages.reverse.find? (fun x => x.sender == Sender.user) = Option.some m)
    (hcond : (TRIAGE_QUESTIONS[s.currentQuestionIndex]?).map Question.id =
        Option.some "usecase_description" ∨ s.isInClarificationLoop = true) :
    (step s .stop).restoredText = m.text ∧
    (step s .stop).processingState = .awaiting_user_input ∧
    (step s .stop).messages = s.messages.filter (fun x => !x.isLoading && x.id != m.id) ∧
    (∀ x ∈ (step s .stop).messages, x.isLoading = false) ∧
    (step s .stop).inflightValidators = s.inflightValidators ∧
    (step s .stop).cancelsIssued = s.cancelsIssued := by
  have hstep : step s .stop = handleStop s := rfl
  rw [hstep]
  unfold handleStop clearPollTimeout
  cases hp : s.pollingTimeoutId <;>
    · simp only [hphase, hfind, if_true, eq_self_iff_true]
      rw [if_pos hcond]
      refine ⟨rfl, rfl, rfl, ?_, rfl, rfl⟩
      intro x hx
      have := (List.mem_filter.mp hx).2
      simp only [Bool.and_eq_true, Bool.not_eq_eq_eq_not] at this
      simpa using this.1

/-- Witness state for C9: the first description answer `d0` was just
submitted and its validator call is in flight. -/
def validatingState : OrchState :=
  run initState (interviewEvents ++ [.userRespond "d0"])

/-- Witness for C9 at the concrete validating state; the most recent
user message is the `d0` answer with identifier 8. -/
theorem stop_during_validation_restores_input_witness :
    (step validatingState .stop).restoredText =
      (Option.some "d0" : Option String) ∧
    (step validatingState .stop).processingState = .awaiting_user_input ∧
    (step validatingState .stop).messages =
      validatingState.messages.filter (fun x => !x.isLoading && x.id != 8) ∧
    (∀ x ∈ (step validatingState .stop).messages, x.isLoading = false) ∧
    (step validatingState .stop).inflightValidators =
      validatingState.inflightValidators ∧
    (step validatingState .stop).cancelsIssued = validatingState.cancelsIssued :=
  stop_during_validation_restores_input validatingState
    { id := 8, sender := .user, text := Option.some "d0", options := [],
      requiresFileUpload := false, result := Option.none, isLoading := false }
    (by decide) (by decide) (by decide)

/-- C3: a validator failure while the phase is `validatingDescription`
performs no retry (the validator-call counter is unchanged and the only
in-flight call consumed is the failed one), records the accumulated
description — which the input layer guarantees is trim-invariant — as
the `usecase_description` answer, advances the cursor by one, and ends
in the awaiting-input state rather than any error state. -/
theorem validator_failure_accepts_description (s : OrchState) (c : Nat)
    (vr : ValidationResult)
    (hphase : s.processingState = .validating_description)
    (hin : s.inflightValidators.contains c = true)
    (htrim : jsTrim s.description = s.description) :
    (step s (.validatorResponse c false vr)).processingState = .awaiting_user_input ∧
    (step s (.validatorResponse c false vr)).processingState ≠ .error ∧
    lookupAnswer (step s (.validatorResponse c false vr)).userAnswers "usecase_description" =
      Option.some s.description ∧
    (step s (.validatorResponse c false vr)).currentQuestionIndex =
      s.currentQuestionIndex + 1 ∧
    (step s (.validatorResponse c false vr)).validatorCalls = s.validatorCalls ∧
    (step s (.validatorResponse c false vr)).inflightValidators =
      s.inflightValidators.filter (fun x => x != c) := by
  simp only [step]
  rw [if_pos hin]
  simp only [applyValidatorResponse, Bool.false_eq_true, if_false, ite_false]
  rw [if_neg (by simp [hphase])]
  simp [askQuestion_processingState, askQuestion_userAnswers,
    askQuestion_currentQuestionIndex, askQuestion_validatorCalls,
    askQuestion_inflightValidators, lookupAnswer_setAnswer, htrim, addMsg]

/-- Witness for C3 at the concrete validating state with call 0 in
flight. -/
theorem validator_failure_accepts_description_witness :
    (step validatingState (.validatorResponse 0 false ⟨false, "", ""⟩)).processingState
        = .awaiting_user_input ∧
    (step validatingState (.validatorResponse 0 false ⟨false, "", ""⟩)).processingState
        ≠ .error ∧
    lookupAnswer (step validatingState
        (.validatorResponse 0 false ⟨false, "", ""⟩)).userAnswers "usecase_description" =
      Option.some validatingState.description ∧
    (step validatingState (.validatorResponse 0 false ⟨false, "", ""⟩)).currentQuestionIndex =
      validatingState.currentQuestionIndex + 1 ∧
    (step validatingState (.validatorResponse 0 false ⟨false, "", ""⟩)).validatorCalls =
      validatingState.validatorCalls ∧
    (step validatingState (.validatorResponse 0 false ⟨false, "", ""⟩)).inflightValidators =
      validatingState.inflightValidators.filter (fun x => x != 0) :=
  validator_failure_accepts_description validatingState 0 ⟨false, "", ""⟩
    (by decide) (by decide) (by decide)

/-! ## Clarification-loop machinery for the round-counting and
description-accumulation claims -/

/-- Separator and prefix the source appends before each refinement. -/
def refineSep : String := "\n\nUser refinement: "

/-- Description accumulated from an initial answer and a list of
refinement answers, in order. -/
def appendRefinements (d : String) (answers : List String) : String :=
  answers.foldl (fun acc a => acc ++ refineSep ++ a) d

/-- One way the clarification loop continues after a validator round:
either the validator judged the description insufficient and the user
answers the clarifying question, or it judged it sufficient and the user
rejects the confirmation and then supplies a refinement. -/
inductive Round where
  | clar (answer : String)
  | rejectThen (answer : String)
deriving Repr, DecidableEq

/-- The free-text answer a round feeds back into the description. -/
def Round.answer : Round → String
  | .clar a => a
  | .rejectThen a => a

/-- Number of confirmation steps a round presents. -/
def Round.confirmations : Round → Nat
  | .clar _ => 0
  | .rejectThen _ => 1

/-- Events realising a list of loop rounds, given the identifier of the
validator call currently in flight. -/
def roundEvents : Nat → List Round → List Event
  | _, [] => []
  | c, .clar a :: rs =>
      .validatorResponse c true ⟨false, "What did you expect to happen?", ""⟩ ::
        .userRespond a :: roundEvents (c + 1) rs
  | c, .rejectThen a :: rs =>
      .validatorResponse c true ⟨true, "", "Summary so far."⟩ ::
        .userRespond "No, refine" :: .userRespond a :: roundEvents (c + 1) rs

/-- Configuration at the description question before the loop is
entered: awaiting the free-text answer, not yet in the loop, no
validator call in flight. -/
def LoopReady (s : OrchState) (c : Nat) : Prop :=
  s.processingState = .awaiting_user_input ∧
  s.isInClarificationLoop = false ∧
  s.currentQuestionIndex = 3 ∧
  s.inflightValidators = [] ∧
  s.nextCallId = c

/-- Configuration with validator call `c` in flight for accumulated
description `d`. -/
def LoopPending (s : OrchState) (c : Nat) (d : String) : Prop :=
  s.processingState = .validating_description ∧
  s.isInClarificationLoop = true ∧
  s.currentQuestionIndex = 3 ∧
  s.inflightValidators = [c] ∧
  s.nextCallId = c + 1 ∧
  s.description = d

/-- Configuration inside the loop awaiting the next free-text answer. -/
def MidLoop (s : OrchState) (c : Nat) (d : String) : Prop :=
  s.processingState = .awaiting_user_input ∧
  s.isInClarificationLoop = true ∧
  s.currentQuestionIndex = 3 ∧
  s.inflightValidators = [] ∧
  s.nextCallId = c ∧
  s.description = d

/-- Configuration at the confirmation step. -/
def ConfirmPending (s : OrchState) (c : Nat) (d : String) : Prop :=
  s.processingState = .awaiting_confirmation ∧
  s.isInClarificationLoop = false ∧
  s.currentQuestionIndex = 3 ∧
  s.inflightValidators = [] ∧
  s.nextCallId = c ∧
  s.description = d

/-- Answering the description question from a loop-ready state issues
exactly one validator call and enters the pending configuration with the
answer as the description. -/
theorem loopReady_respond (s : OrchState) (c : Nat) (d0 : String)
    (h : LoopReady s c) :
    LoopPending (step s (.userRespond d0)) c d0 ∧
    (step s (.userRespond d0)).validatorCalls = s.validatorCalls + 1 ∧
    (step s (.userRespond d0)).confirmStepsShown = s.confirmStepsShown := by
  obtain ⟨h1, h2, h3, h4, h5⟩ := h
  simp [step, handleUserResponse, addMsg, h1, h2, h3, h4, h5,
    question_at_three, validateFullDescription, LoopPending]

/-- An insufficient validator verdict for the pending call re-prompts
and returns to the mid-loop configuration, issuing no further call. -/
theorem loopPending_insufficient (s : OrchState) (c : Nat) (d q : String)
    (h : LoopPending s c d) :
    MidLoop (step s (.validatorResponse c true ⟨false, q, ""⟩)) (c + 1) d ∧
    (step s (.validatorResponse c true ⟨false, q, ""⟩)).validatorCalls = s.validatorCalls ∧
    (step s (.validatorResponse c true ⟨false, q, ""⟩)).confirmStepsShown =
      s.confirmStepsShown := by
  obtain ⟨h1, h2, h3, h4, h5, h6⟩ := h
  simp [step, h4, applyValidatorResponse, h1, h2, h3, h5, h6, addMsg, MidLoop]

/-- A sufficient validator verdict for the pending call presents exactly
one confirmation step and issues no further call. -/
theorem loopPending_sufficient (s : OrchState) (c : Nat) (d sm : String)
    (h : LoopPending s c d) :
    ConfirmPending (step s (.validatorResponse c true ⟨true, "", sm⟩)) (c + 1) d ∧
    (step s (.validatorResponse c true ⟨true, "", sm⟩)).validatorCalls = s.validatorCalls ∧
    (step s (.validatorResponse c true ⟨true, "", sm⟩)).confirmStepsShown =
      s.confirmStepsShown + 1 := by
  obtain ⟨h1, h2, h3, h4, h5, h6⟩ := h
  simp [step, h4, applyValidatorResponse, h1, h2, h3, h5, h6, addMsg, ConfirmPending]

/-- Rejecting the confirmation returns to the mid-loop configuration
with the description untouched and no validator call issued. -/
theorem confirmPending_reject (s : OrchState) (c : Nat) (d r : String)
    (h : ConfirmPending s c d) (hr : r ≠ "Yes, proceed") :
    MidLoop (step s (.userRespond r)) c d ∧
    (step s (.userRespond r)).validatorCalls = s.validatorCalls ∧
    (step s (.userRespond r)).confirmStepsShown = s.confirmStepsShown := by
  obtain ⟨h1, h2, h3, h4, h5, h6⟩ := h
  simp [step, handleUserResponse, addMsg, h1, h2, h3, h4, h5, h6, hr, MidLoop]

/-- A free-text answer from the mid-loop configuration appends one
refinement segment and issues exactly one further validator call. -/
theorem midLoop_respond (s : OrchState) (c : Nat) (d a : String)
    (h : MidLoop s c d) :
    LoopPending (step s (.userRespond a)) c (d ++ refineSep ++ a) ∧
    (step s (.userRespond a)).validatorCalls = s.validatorCalls + 1 ∧
    (step s (.userRespond a)).confirmStepsShown = s.confirmStepsShown := by
  obtain ⟨h1, h2, h3, h4, h5, h6⟩ := h
  simp [step, handleUserResponse, addMsg, h1, h2, h3, h4, h5, h6,
    question_at_three, validateFullDescription, LoopPending, refineSep]

/-- Running a list of loop rounds from a pending configuration appends
the rounds' answers in order, makes exactly one validator call per round
and one confirmation step per rejection round. -/
theorem roundEvents_run (rs : List Round) : ∀ (s : OrchState) (c : Nat) (d : String),
    LoopPending s c d →
    LoopPending (run s (roundEvents c rs)) (c + rs.length)
      (appendRefinements d (rs.map Round.answer)) ∧
    (run s (roundEvents c rs)).validatorCalls = s.validatorCalls + rs.length ∧
    (run s (roundEvents c rs)).confirmStepsShown =
      s.confirmStepsShown + (rs.map Round.confirmations).sum := by
  induction rs with
  | nil =>
      intro s c d h
      simpa [roundEvents, run, appendRefinements] using h
  | cons r rest ih =>
      intro s c d h
      cases r with
      | clar a =>
          obtain ⟨hmid, hv1, hc1⟩ := loopPending_insufficient s c d
            "What did you expect to happen?" h
          obtain ⟨hpend, hv2, hc2⟩ := midLoop_respond _ (c + 1) d a hmid
          obtain ⟨hfin, hv3, hc3⟩ := ih _ (c + 1) (d ++ refineSep ++ a) hpend
          refine ⟨?_, ?_, ?_⟩
          · have heq : run s (roundEvents c (Round.clar a :: rest)) =
                run (step (step s (.validatorResponse c true
                  ⟨false, "What did you expect to happen?", ""⟩)) (.userRespond a))
                  (roundEvents (c + 1) rest) := by
              simp [roundEvents, run]
            rw [heq]
            have : appendRefinements d ((Round.clar a :: rest).map Round.answer) =
                appendRefinements (d ++ refineSep ++ a) (rest.map Round.answer) := by
              simp [appendRefinements, Round.answer]
            rw [this]
            have hlen : c + (Round.clar a :: rest).length = (c + 1) + rest.length := by
              simp
              omega
            rw [hlen]
            exact hfin
          · have heq : run s (roundEvents c (Round.clar a :: rest)) =
                run (step (step s (.validatorResponse c true
                  ⟨false, "What did you expect to happen?", ""⟩)) (.userRespond a))
                  (roundEvents (c + 1) rest) := by
              simp [roundEvents, run]
            rw [heq, hv3, hv2, hv1]
            simp
            omega
          · have heq : run s (roundEvents c (Round.clar a :: rest)) =
                run (step (step s (.validatorResponse c true
                  ⟨false, "What did you expect to happen?", ""⟩)) (.userRespond a))
                  (roundEvents (c + 1) rest) := by
              simp [roundEvents, run]
            rw [heq, hc3, hc2, hc1]
            simp [Round.confirmations]
      | rejectThen a =>
          obtain ⟨hconf, hv1, hc1⟩ := loopPending_sufficient s c d "Summary so far." h
          obtain ⟨hmid, hv2, hc2⟩ := confirmPending_reject _ (c + 1) d "No, refine"
            hconf (by decide)
          obtain ⟨hpend, hv3, hc3⟩ := midLoop_respond _ (c + 1) d a hmid
          obtain ⟨hfin, hv4, hc4⟩ := ih _ (c + 1) (d ++ refineSep ++ a) hpend
          have heq : run s (roundEvents c (Round.rejectThen a :: rest)) =
              run (step (step (step s (.validatorResponse c true
                ⟨true, "", "Summary so far."⟩)) (.userRespond "No, refine"))
                (.userRespond a)) (roundEvents (c + 1) rest) := by
            simp [roundEvents, run]
          refine ⟨?_, ?_, ?_⟩
          · rw [heq]
            have : appendRefinements d ((Round.rejectThen a :: rest).map Round.answer) =
                appendRefinements (d ++ refineSep ++ a) (rest.map Round.answer) := by
              simp [appendRefinements, Round.answer]
            rw [this]
            have hlen : c + (Round.rejectThen a :: rest).length = (c + 1) + rest.length := by
              simp
              omega
            rw [hlen]
            exact hfin
          · rw [heq, hv4, hv3, hv2, hv1]
            simp
            omega
          · rw [heq, hc4, hc3, hc2, hc1]
            simp [Round.confirmations]
            omega

/-- Clarification-only rounds present no confirmation step. -/
theorem clar_rounds_no_confirmations (answers : List String) :
    ((answers.map Round.clar).map Round.confirmations).sum = 0 := by
  induction answers with
  | nil => rfl
  | cons a t ih => simpa [Round.confirmations] using ih

/-- Concrete loop-ready state: the session started and the three
closed-choice questions were answered. -/
def loopReadyState : OrchState := run initState interviewEvents

/-- C6: from a loop-ready state, if the validator judges the description
insufficient for `k` consecutive rounds (here `k` clarification answers)
and sufficient on round `k + 1`, exactly `k + 1` validator calls are
made and exactly one confirmation step is presented. -/
theorem clarification_loop_counts (s : OrchState) (c : Nat) (d0 sm : String)
    (answers : List String) (h : LoopReady s c) :
    (run s (.userRespond d0 :: (roundEvents c (answers.map Round.clar) ++
        [.validatorResponse (c + answers.length) true ⟨true, "", sm⟩]))).validatorCalls =
      s.validatorCalls + (answers.length + 1) ∧
    (run s (.userRespond d0 :: (roundEvents c (answers.map Round.clar) ++
        [.validatorResponse (c + answers.length) true ⟨true, "", sm⟩]))).confirmStepsShown =
      s.confirmStepsShown + 1 := by
  obtain ⟨hpend, hv1, hc1⟩ := loopReady_respond s c d0 h
  obtain ⟨hfin, hv2, hc2⟩ := roundEvents_run (answers.map Round.clar) _ c d0 hpend
  rw [List.length_map] at hfin
  obtain ⟨_, hv3, hc3⟩ := loopPending_sufficient _ (c + answers.length)
    (appendRefinements d0 ((answers.map Round.clar).map Round.answer)) sm hfin
  have heq : run s (.userRespond d0 :: (roundEvents c (answers.map Round.clar) ++
      [.validatorResponse (c + answers.length) true ⟨true, "", sm⟩])) =
      step (run (step s (.userRespond d0)) (roundEvents c (answers.map Round.clar)))
        (.validatorResponse (c + answers.length) true ⟨true, "", sm⟩) := by
    simp [run]
  rw [heq]
  constructor
  · rw [hv3, hv2, List.length_map, hv1]
    omega
  · rw [hc3, hc2, clar_rounds_no_confirmations, hc1]

/-- Witness for C6 at the concrete loop-ready state with one
insufficient round. -/
theorem clarification_loop_counts_witness :
    (run loopReadyState (.userRespond "d0" :: (roundEvents 0 (["a1"].map Round.clar) ++
        [.validatorResponse (0 + ["a1"].length) true ⟨true, "", "S"⟩]))).validatorCalls =
      loopReadyState.validatorCalls + (["a1"].length + 1) ∧
    (run loopReadyState (.userRespond "d0" :: (roundEvents 0 (["a1"].map Round.clar) ++
        [.validatorResponse (0 + ["a1"].length) true ⟨true, "", "S"⟩]))).confirmStepsShown =
      loopReadyState.confirmStepsShown + 1 :=
  clarification_loop_counts loopReadyState 0 "d0" "S" ["a1"]
    (by unfold LoopReady; exact ⟨rfl, rfl, rfl, rfl, rfl⟩)

/-- C7: for every sequence of clarification-round or
confirmation-rejection free-text answers, the accumulated description is
the initial answer followed, for each subsequent answer in submission
order, by the separating delimiter and refinement prefix
`"\n\nUser refinement: "` plus that answer's text. -/
theorem description_accumulates (s : OrchState) (c : Nat) (d0 : String)
    (rs : List Round) (h : LoopReady s c) :
    (run s (.userRespond d0 :: roundEvents c rs)).description =
      appendRefinements d0 (rs.map Round.answer) := by
  obtain ⟨hpend, -, -⟩ := loopReady_respond s c d0 h
  obtain ⟨hfin, -, -⟩ := roundEvents_run rs _ c d0 hpend
  have heq : run s (.userRespond d0 :: roundEvents c rs) =
      run (step s (.userRespond d0)) (roundEvents c rs) := by
    simp [run]
  rw [heq]
  exact hfin.2.2.2.2.2

/-- Witness for C7: one clarification round followed by one rejected
confirmation gives two refinement segments in order. -/
theorem description_accumulates_witness :
    (run loopReadyState (.userRespond "d0" ::
        roundEvents 0 [Round.clar "a1", Round.rejectThen "a2"])).description =
      appendRefinements "d0" ([Round.clar "a1", Round.rejectThen "a2"].map Round.answer) :=
  description_accumulates loopReadyState 0 "d0" [Round.clar "a1", Round.rejectThen "a2"]
    (by unfold LoopReady; exact ⟨rfl, rfl, rfl, rfl, rfl⟩)

/-! ## Polling-discipline machinery -/

/-- A filter that rejects some member of the list strictly shrinks it. -/
theorem length_filter_lt_of_mem_not {α : Type} (l : List α) (p : α → Bool) (x : α)
    (hx : x ∈ l) (hpx : p x = false) : (l.filter p).length < l.length := by
  induction l with
  | nil => cases hx
  | cons a t ih =>
      rcases List.mem_cons.mp hx with rfl | hxt
      · have := List.length_filter_le p t
        simp [List.filter_cons, hpx]
        omega
      · cases hpa : p a <;> simp [List.filter_cons, hpa]
        · exact Nat.lt_succ_of_lt (ih hxt)
        · exact ih hxt

/-- Frame of `handleStop` for the polling invariant: in-flight polls are
untouched and live timers never grow. -/
theorem handleStop_pollFrame (s : OrchState) :
    (handleStop s).inflightPolls = s.inflightPolls ∧
    (handleStop s).liveTimers.length ≤ s.liveTimers.length := by
  unfold handleStop clearPollTimeout
  cases hp : s.pollingTimeoutId <;> simp only [hp] <;>
    (split <;> (try split) <;> (try split) <;>
      simp [addMsg, List.length_filter_le])

/-- Frame of `handleReset` for the polling invariant. -/
theorem handleReset_pollFrame (s : OrchState) :
    (handleReset s).inflightPolls = s.inflightPolls ∧
    (handleReset s).liveTimers.length ≤ s.liveTimers.length := by
  unfold handleReset clearPollTimeout
  cases hp : s.pollingTimeoutId <;> simp [List.length_filter_le]

/-- Frame of the poll continuation for the polling invariant: in-flight
polls are untouched and at most one timer is added. -/
theorem applyPollResponse_pollFrame (s : OrchState) (ok : Bool) (st : TriageStatus) :
    (applyPollResponse s ok st).inflightPolls = s.inflightPolls ∧
    (applyPollResponse s ok st).liveTimers.length ≤ s.liveTimers.length + 1 := by
  unfold applyPollResponse cancelScheduledPoll
  cases hp : s.pollingTimeoutId <;> simp only [hp] <;>
    cases ok <;>
      (split <;> (try split) <;> (try split) <;> (try split) <;> (try split) <;>
        simp_all [addMsg, List.length_filter_le] <;>
        (try exact Nat.le_succ_of_le (List.length_filter_le _ _)))

/-- Events of a stale-submit race: a first flow reaches submission (call
1), is stopped and reset; a second flow reaches submission (call 3) and
its completion schedules a poll timer; then the first submission's
completion arrives late and schedules a second timer. -/
def doubleSubmitEvents : List Event :=
  singleFlowEvents ++
    [.stop, .reset, .sessionStart,
     .userRespond "Frontend", .userRespond "Local Development", .userRespond "Single User",
     .userRespond "the retry also returned a 500 and I expected a success message",
     .validatorResponse 2 true ⟨true, "", "Summary of my understanding."⟩,
     .userRespond "Yes, proceed",
     .userRespond "No, I only have one log file.",
     .userUpload "b.log" "log line two",
     .submitResponse 3 true "task2",
     .submitResponse 1 true "task1"]

/-- Counterexample to C8 as stated: after a stale submit completion two
poll timers are scheduled simultaneously, and when both fire two poll
calls for the same current task are in flight — so "at most one
scheduled poll exists for the task at every moment" fails on the code.
The submit-success continuation schedules its poll without any phase or
generation check. -/
theorem two_scheduled_polls_counterexample :
    (run initState doubleSubmitEvents).liveTimers =
      [(0, POLLING_INTERVAL), (1, POLLING_INTERVAL)] ∧
    (run initState doubleSubmitEvents).triageTaskId = Option.some "task1" ∧
    (run (run initState doubleSubmitEvents) [.timerFire 0, .timerFire 1]).inflightPolls =
      [(4, "task1"), (5, "task1")] := by
  decide

/-- C8 as amended: a non-terminal poll response handled in the polling
phase with no timer pending schedules exactly one further poll after the
same fixed delay, a terminal response (`FAILED`, or `SUCCESS` carrying a
result) schedules none and so ends the loop, and along stop, reset,
timer-fire and poll-response events the number of scheduled polls plus
in-flight poll calls never exceeds one; the at-most-one-scheduled-poll
bound does not survive a stale submit completion (see the
counterexample). -/
theorem polling_reschedule_discipline (s : OrchState) (c : Nat)
    (st : TriageStatus) (e : Event) :
    (s.processingState = .processing →
      s.inflightPolls.any (fun p => p.1 == c) = true →
      s.liveTimers = [] →
      (st.status = .PENDING ∨ st.status = .PROCESSING) →
      (step s (.pollResponse c true st)).liveTimers =
        [(s.nextTimerId, POLLING_INTERVAL)]) ∧
    (s.processingState = .processing →
      s.inflightPolls.any (fun p => p.1 == c) = true →
      s.liveTimers = [] →
      (st.status = .FAILED ∨ (st.status = .SUCCESS ∧ st.result ≠ Option.none)) →
      (step s (.pollResponse c true st)).liveTimers = []) ∧
    ((e = .stop ∨ e = .reset ∨ (∃ t, e = .timerFire t) ∨
        (∃ c2 ok2 st2, e = .pollResponse c2 ok2 st2)) →
      s.liveTimers.length + s.inflightPolls.length ≤ 1 →
      (step s e).liveTimers.length + (step s e).inflightPolls.length ≤ 1) := by
  refine ⟨?_, ?_, ?_⟩
  · intro hph hin hlt hst
    simp only [step]
    rw [if_pos hin]
    rcases hst with h | h <;> cases hres : st.result <;>
      simp [applyPollResponse, hph, h, hres, hlt, addMsg, cancelScheduledPoll]
  · intro hph hin hlt hst
    simp only [step]
    rw [if_pos hin]
    rcases hst with h | ⟨h1, h2⟩
    · cases hres : st.result <;>
        cases hp : s.pollingTimeoutId <;>
          simp [applyPollResponse, hph, h, hres, hp, hlt, addMsg, cancelScheduledPoll]
    · cases hres : st.result
      · exact absurd hres h2
      · cases hp : s.pollingTimeoutId <;>
          simp [applyPollResponse, hph, h1, hres, hp, hlt, addMsg, cancelScheduledPoll]
  · intro he hsum
    rcases he with rfl | rfl | ⟨t, rfl⟩ | ⟨c2, ok2, st2, rfl⟩
    · have hframe := handleStop_pollFrame s
      have hstep : step s .stop = handleStop s := rfl
      rw [hstep, hframe.1]
      have := hframe.2
      omega
    · have hframe := handleReset_pollFrame s
      have hstep : step s .reset = handleReset s := rfl
      rw [hstep, hframe.1]
      have := hframe.2
      omega
    · simp only [step]
      by_cases hany : s.liveTimers.any (fun p => p.1 == t) = true
      · rw [if_pos hany]
        obtain ⟨x, hxmem, hxp⟩ := List.any_eq_true.mp hany
        have hflt : (s.liveTimers.filter (fun p => p.1 != t)).length <
            s.liveTimers.length :=
          length_filter_lt_of_mem_not _ _ x hxmem (by simp [bne]; simpa using hxp)
        have hpos : 0 < s.liveTimers.length := List.length_pos_of_mem hxmem
        cases htask : s.triageTaskId <;> simp [htask] <;> omega
      · rw [if_neg hany]
        exact hsum
    · simp only [step]
      by_cases hany : s.inflightPolls.any (fun p => p.1 == c2) = true
      · rw [if_pos hany]
        obtain ⟨x, hxmem, hxp⟩ := List.any_eq_true.mp hany
        have hflt : (s.inflightPolls.filter (fun p => p.1 != c2)).length <
            s.inflightPolls.length :=
          length_filter_lt_of_mem_not _ _ x hxmem (by simp [bne]; simpa using hxp)
        have hpos : 0 < s.inflightPolls.length := List.length_pos_of_mem hxmem
        have hframe := applyPollResponse_pollFrame
          { s with inflightPolls := s.inflightPolls.filter (fun p => p.1 != c2) } ok2 st2
        rw [hframe.1]
        have := hframe.2
        simp only at this ⊢
        omega
      · rw [if_neg hany]
        exact hsum

/-- Witness for the amended C8 at the concrete polling state: a
`PROCESSING` response schedules exactly one poll, a `SUCCESS` response
with a result schedules none, and a Stop preserves the bound. -/
theorem polling_reschedule_discipline_witness :
    (step pollingState (.pollResponse 2 true
        ⟨.PROCESSING, "Generating summary and actions...", Option.none⟩)).liveTimers =
      [(pollingState.nextTimerId, POLLING_INTERVAL)] ∧
    (step pollingState (.pollResponse 2 true
        ⟨.SUCCESS, "Complete", Option.some ⟨"s", [], []⟩⟩)).liveTimers = [] ∧
    ((step pollingState .stop).liveTimers.length +
        (step pollingState .stop).inflightPolls.length ≤ 1) :=
  ⟨(polling_reschedule_discipline pollingState 2
      ⟨.PROCESSING, "Generating summary and actions...", Option.none⟩ .stop).1
      (by decide) (by decide) (by decide) (by decide),
   (polling_reschedule_discipline pollingState 2
      ⟨.SUCCESS, "Complete", Option.some ⟨"s", [], []⟩⟩ .stop).2.1
      (by decide) (by decide) (by decide) (by decide),
   (polling_reschedule_discipline pollingState 2
      ⟨.SUCCESS, "Complete", Option.some ⟨"s", [], []⟩⟩ .stop).2.2
      (Or.inl rfl) (by decide)⟩

end LogTriage
